import Mathlib

/-!
Formal model of the image-composition core of SocialGenius (src/App.tsx):
the crop selection engine (ImageCropper, lines 335 to 417) and the text
overlay compositor (ImageEditor, lines 425 to 463).  All numeric values
are modelled exactly over the rationals.
-/

namespace SocialGenius

/-- A decoded raster image: its natural pixel dimensions plus an abstract
pixel buffer.  For a fully decoded, unstyled image element the DOM `width`
and `height` coincide with `naturalWidth` and `naturalHeight`. -/
structure Img where
  naturalWidth : ℕ
  naturalHeight : ℕ
  pixels : List ℕ
deriving DecidableEq

/-- DOM `img.width` of a decoded image equals its natural width. -/
def Img.width (img : Img) : ℕ := img.naturalWidth

/-- DOM `img.height` of a decoded image equals its natural height. -/
def Img.height (img : Img) : ℕ := img.naturalHeight

/-- The crop selection state, in percentages of the source image
(line 336: `useState({ x: 10, y: 10, width: 80 })`). -/
structure Crop where
  x : ℚ
  y : ℚ
  width : ℚ
deriving DecidableEq

/-- The default selection (line 336). -/
def initialCrop : Crop := { x := 10, y := 10, width := 80 }

/-- Session initialisation: mounting ImageCropper (lines 335 to 343) sets
the selection to the default regardless of the image or the target ratio;
the component performs no validation of either input. -/
def beginCrop (_img : Img) (_ratio : ℚ) : Crop := { x := 10, y := 10, width := 80 }

/-- Line 341: `const height = crop.width / targetRatio`. -/
def height (ratio : ℚ) (c : Crop) : ℚ := c.width / ratio

/-- Line 342: `const clampedHeight = Math.min(height, 100 - crop.y)`. -/
def clampedHeight (ratio : ℚ) (c : Crop) : ℚ := min (height ratio c) (100 - c.y)

/-- Line 343: `const clampedWidth = clampedHeight * targetRatio`. -/
def clampedWidth (ratio : ℚ) (c : Crop) : ℚ := clampedHeight ratio c * ratio

/-- `handleMouseMove` (lines 345 to 356), with the pointer position
already converted to percentage coordinates `px`, `py`; only `x` and `y`
of the selection are replaced, `width` is carried over unchanged. -/
def updateSelection (ratio : ℚ) (c : Crop) (px py : ℚ) : Crop :=
  { c with
    x := max 0 (min (px - c.width / 2) (100 - c.width))
    y := max 0 (min (py - clampedHeight ratio c / 2) (100 - clampedHeight ratio c)) }

/-- Selections reachable from the default selection by any sequence of
pointer-move updates. -/
inductive Reachable (ratio : ℚ) : Crop → Prop
  | init : Reachable ratio initialCrop
  | step (c : Crop) (px py : ℚ) :
      Reachable ratio c → Reachable ratio (updateSelection ratio c px py)

/-- Line 365: `const sourceX = (crop.x / 100) * img.naturalWidth`. -/
def sourceX (c : Crop) (img : Img) : ℚ := (c.x / 100) * img.naturalWidth

/-- Line 366: `const sourceY = (crop.y / 100) * img.naturalHeight`. -/
def sourceY (c : Crop) (img : Img) : ℚ := (c.y / 100) * img.naturalHeight

/-- Line 367: `const sourceWidth = (clampedWidth / 100) * img.naturalWidth`. -/
def sourceWidth (ratio : ℚ) (c : Crop) (img : Img) : ℚ :=
  (clampedWidth ratio c / 100) * img.naturalWidth

/-- Line 368: `const sourceHeight = (clampedHeight / 100) * img.naturalHeight`. -/
def sourceHeight (ratio : ℚ) (c : Crop) (img : Img) : ℚ :=
  (clampedHeight ratio c / 100) * img.naturalHeight

/-- Assigning a fractional number to `canvas.width` or `canvas.height`
(lines 370 to 371) coerces it through the WebIDL unsigned-long
conversion, which truncates the fractional part; every value arising
here is nonnegative and far below 2^32, so this is the floor. -/
def canvasDim (q : ℚ) : ℕ := ⌊q⌋.toNat

/-- The output pixel dimensions of the crop canvas (lines 370 to 371). -/
def applyCropDims (ratio : ℚ) (c : Crop) (img : Img) : ℕ × ℕ :=
  (canvasDim (sourceWidth ratio c img), canvasDim (sourceHeight ratio c img))

/-- The exported canvas of a completed crop: its pixel dimensions and the
exact source-pixel rectangle that was drawn onto it (lines 365 to 373). -/
structure CropOutput where
  width : ℕ
  height : ℕ
  sx : ℚ
  sy : ℚ
  sw : ℚ
  sh : ℚ
deriving DecidableEq

/-- Everything the caller can observe from `applyCrop`: either `onConfirm`
is invoked with a complete exported image, or the function returns early
and nothing at all happens. -/
inductive CropOutcome where
  | confirmed : CropOutput → CropOutcome
  | silent : CropOutcome
deriving DecidableEq

/-- `applyCrop` (lines 358 to 374): `if (!img) return;` then
`if (!ctx) return;` (both plain early returns), otherwise the full region
is drawn onto the freshly sized canvas and confirmed in one step. -/
def applyCrop (imgOpt : Option Img) (ctxOk : Bool) (ratio : ℚ) (c : Crop) : CropOutcome :=
  match imgOpt with
  | none => CropOutcome.silent
  | some img =>
    if ctxOk then
      CropOutcome.confirmed
        { width := canvasDim (sourceWidth ratio c img)
          height := canvasDim (sourceHeight ratio c img)
          sx := sourceX c img
          sy := sourceY c img
          sw := sourceWidth ratio c img
          sh := sourceHeight ratio c img }
    else CropOutcome.silent

/-- Bounds maintained by every reachable selection. -/
def GoodCrop (c : Crop) : Prop :=
  c.width = 80 ∧ 0 ≤ c.x ∧ c.x ≤ 20 ∧ 0 ≤ c.y ∧ c.y < 100

theorem goodCrop_init : GoodCrop initialCrop := by
  refine ⟨rfl, ?_, ?_, ?_, ?_⟩ <;> norm_num [initialCrop]

theorem clampedHeight_pos {ratio : ℚ} (hr : 0 < ratio) {c : Crop} (hg : GoodCrop c) :
    0 < clampedHeight ratio c := by
  obtain ⟨hw, -, -, -, hy⟩ := hg
  have h1 : 0 < height ratio c := by
    unfold height; rw [hw]; positivity
  have h2 : (0 : ℚ) < 100 - c.y := by linarith
  exact lt_min h1 h2

theorem clampedHeight_le (ratio : ℚ) (c : Crop) : clampedHeight ratio c ≤ 100 - c.y :=
  min_le_right _ _

theorem goodCrop_step {ratio : ℚ} (hr : 0 < ratio) {c : Crop} (hg : GoodCrop c) (px py : ℚ) :
    GoodCrop (updateSelection ratio c px py) := by
  obtain ⟨hw, hx0, hx1, hy0, hy1⟩ := hg
  have hch0 : 0 < clampedHeight ratio c := clampedHeight_pos hr ⟨hw, hx0, hx1, hy0, hy1⟩
  have hch1 : clampedHeight ratio c ≤ 100 - c.y := clampedHeight_le ratio c
  refine ⟨hw, le_max_left _ _, ?_, le_max_left _ _, ?_⟩
  · show max 0 (min (px - c.width / 2) (100 - c.width)) ≤ 20
    apply max_le (by norm_num)
    exact le_trans (min_le_right _ _) (by rw [hw]; norm_num)
  · show max 0 (min (py - clampedHeight ratio c / 2) (100 - clampedHeight ratio c)) < 100
    apply max_lt (by norm_num)
    exact lt_of_le_of_lt (min_le_right _ _) (by linarith)

theorem goodCrop_reachable {ratio : ℚ} (hr : 0 < ratio) {c : Crop}
    (hc : Reachable ratio c) : GoodCrop c := by
  induction hc with
  | init => exact goodCrop_init
  | step c px py _ ih => exact goodCrop_step hr ih px py

/-- Claim C1: for every targetRatio > 0 and every sequence of
updateSelection calls starting from the initial selection
(x 10, y 10, width 80), the derived crop rectangle satisfies 0 ≤ x,
0 ≤ y, x + clampedWidth ≤ 100, y + clampedHeight ≤ 100, and
clampedWidth / clampedHeight equals the target ratio (exactly, over ℚ). -/
theorem crop_containment_invariant (ratio : ℚ) (hr : 0 < ratio) (c : Crop)
    (hc : Reachable ratio c) :
    0 ≤ c.x ∧ 0 ≤ c.y ∧ c.x + clampedWidth ratio c ≤ 100 ∧
    c.y + clampedHeight ratio c ≤ 100 ∧
    clampedWidth ratio c / clampedHeight ratio c = ratio := by
  obtain ⟨hw, hx0, hx1, hy0, hy1⟩ := goodCrop_reachable hr hc
  have hch0 : 0 < clampedHeight ratio c := clampedHeight_pos hr ⟨hw, hx0, hx1, hy0, hy1⟩
  have hch1 : clampedHeight ratio c ≤ 100 - c.y := clampedHeight_le ratio c
  have hcw : clampedWidth ratio c ≤ 80 := by
    have h1 : clampedHeight ratio c ≤ height ratio c := min_le_left _ _
    unfold height at h1
    have h2 : clampedHeight ratio c * ratio ≤ (c.width / ratio) * ratio :=
      mul_le_mul_of_nonneg_right h1 (le_of_lt hr)
    have h3 : (c.width / ratio) * ratio = c.width := div_mul_cancel₀ _ (ne_of_gt hr)
    unfold clampedWidth
    rw [h3, hw] at h2
    exact h2
  refine ⟨hx0, hy0, by linarith, by linarith, ?_⟩
  unfold clampedWidth
  rw [mul_comm, mul_div_assoc, div_self (ne_of_gt hch0), mul_one]

/-- Witness for C1: the invariant holds concretely at ratio 16/9 on the
initial selection. -/
theorem crop_containment_invariant_witness :
    (0 : ℚ) < 16 / 9 ∧
    (0 ≤ initialCrop.x ∧ 0 ≤ initialCrop.y ∧
      initialCrop.x + clampedWidth (16 / 9) initialCrop ≤ 100 ∧
      initialCrop.y + clampedHeight (16 / 9) initialCrop ≤ 100 ∧
      clampedWidth (16 / 9) initialCrop / clampedHeight (16 / 9) initialCrop = 16 / 9) :=
  ⟨by norm_num, crop_containment_invariant (16 / 9) (by norm_num) initialCrop Reachable.init⟩

/-- Claim C3: updateSelection is a pure function of the current selection
and pointer position that changes only x and y (width is never changed):
new x = clamp(pointerX - width/2, 0, 100 - width) and
new y = clamp(pointerY - clampedHeight/2, 0, 100 - clampedHeight);
with the pointer at (5, 5) on the default selection under ratio 16/9
(so width 80 and clampedHeight 45), the result is x = 0, y = 0. -/
theorem updateSelection_repositions_only :
    (∀ (ratio : ℚ) (c : Crop) (px py : ℚ),
      (updateSelection ratio c px py).width = c.width) ∧
    (∀ (ratio : ℚ) (c : Crop) (px py : ℚ),
      (updateSelection ratio c px py).x = max 0 (min (px - c.width / 2) (100 - c.width)) ∧
      (updateSelection ratio c px py).y =
        max 0 (min (py - clampedHeight ratio c / 2) (100 - clampedHeight ratio c))) ∧
    clampedHeight (16 / 9) initialCrop = 45 ∧
    updateSelection (16 / 9) initialCrop 5 5 = { x := 0, y := 0, width := 80 } := by
  refine ⟨fun _ _ _ _ => rfl, fun _ _ _ _ => ⟨rfl, rfl⟩, ?_, ?_⟩
  · norm_num [clampedHeight, height, initialCrop, min_def]
  · norm_num [updateSelection, clampedHeight, height, initialCrop, min_def, max_def,
      Crop.mk.injEq]

/-- Claim C4 counterexample: ImageCropper performs no input validation;
invoked with targetRatio 0 (and even on a zero-dimension image) it does
not fail but initialises the default selection. -/
theorem beginCrop_zero_ratio_counterexample :
    beginCrop { naturalWidth := 1000, naturalHeight := 1000, pixels := [] } 0 = initialCrop ∧
    beginCrop { naturalWidth := 0, naturalHeight := 0, pixels := [] } 0 = initialCrop :=
  ⟨rfl, rfl⟩

/-- Claim C4 amended: beginCrop never fails: for every image and every
targetRatio (including targetRatio ≤ 0 and zero-dimension images) it
initialises the selection at x 10, y 10, width 80; no InvalidInput check
exists in the code. -/
theorem beginCrop_never_fails :
    ∀ (img : Img) (ratio : ℚ), beginCrop img ratio = { x := 10, y := 10, width := 80 } :=
  fun _ _ => rfl

def img1000 : Img := { naturalWidth := 1000, naturalHeight := 1000, pixels := [] }

def img1001 : Img := { naturalWidth := 1001, naturalHeight := 1000, pixels := [] }

theorem sourceWidth_img1001 :
    sourceWidth (16 / 9) initialCrop img1001 = 4004 / 5 := by
  norm_num [sourceWidth, clampedWidth, clampedHeight, height, initialCrop, img1001, min_def]

/-- Claim C2 counterexample: on a 1001 by 1000 source with ratio 16/9 and
the initial selection, sourceWidth is 800.8; the canvas truncates it to
800, while rounding would give 801. -/
theorem applyCrop_dims_round_counterexample :
    applyCropDims (16 / 9) initialCrop img1001 = (800, 450) ∧
    round (sourceWidth (16 / 9) initialCrop img1001) = (801 : ℤ) ∧
    ((applyCropDims (16 / 9) initialCrop img1001).1 : ℤ) ≠
      round (sourceWidth (16 / 9) initialCrop img1001) := by
  have hsw : sourceWidth (16 / 9) initialCrop img1001 = 4004 / 5 := sourceWidth_img1001
  have hsh : sourceHeight (16 / 9) initialCrop img1001 = 450 := by
    norm_num [sourceHeight, clampedHeight, height, initialCrop, img1001, min_def]
  have hround : round (sourceWidth (16 / 9) initialCrop img1001) = 801 := by
    rw [hsw]; norm_num [round_eq]
  have hdims : applyCropDims (16 / 9) initialCrop img1001 = (800, 450) := by
    unfold applyCropDims canvasDim
    rw [hsw, hsh]
    norm_num
    exact ⟨rfl, rfl⟩
  refine ⟨hdims, hround, ?_⟩
  rw [hround, hdims]
  norm_num

/-- Claim C2 amended: the output dimensions equal the floor (truncation)
of clampedWidth/100 times naturalWidth by the floor of clampedHeight/100
times naturalHeight, because assigning a fractional value to canvas.width
truncates; in the concrete scenario (1000 by 1000 source, ratio 16/9,
initial selection) the extracted region is exactly the rectangle from
(100, 100) to (900, 550) and the output is exactly 800 by 450. -/
theorem applyCrop_dims_floor :
    (∀ (ratio : ℚ) (c : Crop) (img : Img),
      applyCropDims ratio c img =
        (⌊sourceWidth ratio c img⌋.toNat, ⌊sourceHeight ratio c img⌋.toNat)) ∧
    sourceX initialCrop img1000 = 100 ∧
    sourceY initialCrop img1000 = 100 ∧
    sourceX initialCrop img1000 + sourceWidth (16 / 9) initialCrop img1000 = 900 ∧
    sourceY initialCrop img1000 + sourceHeight (16 / 9) initialCrop img1000 = 550 ∧
    applyCrop (some img1000) true (16 / 9) initialCrop =
      CropOutcome.confirmed
        { width := 800, height := 450, sx := 100, sy := 100, sw := 800, sh := 450 } := by
  have hsw : sourceWidth (16 / 9) initialCrop img1000 = 800 := by
    norm_num [sourceWidth, clampedWidth, clampedHeight, height, initialCrop, img1000, min_def]
  have hsh : sourceHeight (16 / 9) initialCrop img1000 = 450 := by
    norm_num [sourceHeight, clampedHeight, height, initialCrop, img1000, min_def]
  have hsx : sourceX initialCrop img1000 = 100 := by
    norm_num [sourceX, initialCrop, img1000]
  have hsy : sourceY initialCrop img1000 = 100 := by
    norm_num [sourceY, initialCrop, img1000]
  have hcw : canvasDim (sourceWidth (16 / 9) initialCrop img1000) = 800 := by
    rw [canvasDim, hsw]; norm_num; rfl
  have hch : canvasDim (sourceHeight (16 / 9) initialCrop img1000) = 450 := by
    rw [canvasDim, hsh]; norm_num; rfl
  refine ⟨fun _ _ _ => rfl, hsx, hsy, by rw [hsx, hsw]; norm_num,
    by rw [hsy, hsh]; norm_num, ?_⟩
  show CropOutcome.confirmed
      { width := canvasDim (sourceWidth (16 / 9) initialCrop img1000)
        height := canvasDim (sourceHeight (16 / 9) initialCrop img1000)
        sx := sourceX initialCrop img1000
        sy := sourceY initialCrop img1000
        sw := sourceWidth (16 / 9) initialCrop img1000
        sh := sourceHeight (16 / 9) initialCrop img1000 } = _
  rw [hcw, hch, hsx, hsy, hsw, hsh]

/-- A font entry of the FONTS table (lines 14 to 19); only the Display
entry carries an explicit weight. -/
structure Font where
  name : String
  family : String
  weight : Option String
deriving DecidableEq

/-- The FONTS table (lines 14 to 19). -/
def FONTS : List Font :=
  [ { name := "Sans", family := "\x27Inter\x27, sans-serif", weight := none }
  , { name := "Serif", family := "\x27Playfair Display\x27, serif", weight := none }
  , { name := "Mono", family := "\x27Inter Tight\x27, monospace", weight := none }
  , { name := "Display", family := "\x27Inter\x27, sans-serif", weight := some "900" } ]

/-- The ImageEditor state consumed by the drawing effect
(lines 426 to 430): overlay text, selected font, fill color, base font
size in px, and vertical position in percent. -/
structure OverlayState where
  text : String
  font : Font
  color : String
  fontSize : ℚ
  positionY : ℚ
deriving DecidableEq

/-- Every parameter of the single text draw (lines 448 to 453): fill
style, font weight/size/family, alignment, shadow, position, and the
string itself. -/
structure TextDraw where
  fillStyle : String
  fontWeight : String
  fontPx : ℚ
  fontFamily : String
  textAlign : String
  shadowColor : String
  shadowBlur : ℚ
  text : String
  x : ℚ
  y : ℚ
deriving DecidableEq

/-- Symbolic canvas contents: a canvas is blank after (re)sizing, then an
image is blitted at the origin, then possibly one text draw is applied on
top.  Rasterisation is a deterministic function of this content, so equal
contents rasterise to pixel-identical images. -/
inductive Content where
  | blank : ℕ → ℕ → Content
  | imageAt : Content → Img → Content
  | textOver : Content → TextDraw → Content
deriving DecidableEq

/-- Assigning `canvas.width` and `canvas.height` (lines 443 to 444)
resets the canvas bitmap, discarding whatever was drawn before. -/
def setSize (_prev : Content) (w h : ℕ) : Content := Content.blank w h

/-- The parameters of the text draw performed when the overlay text is
non-empty (lines 448 to 453): fill color from the state, weight from the
font entry defaulting to 700, size scaled by `img.width / 500`, centered
horizontally, fixed shadow `rgba(0,0,0,0.5)` with blur 10, drawn at
`(canvas.width / 2, canvas.height * positionY / 100)`. -/
def textCmd (img : Img) (s : OverlayState) : TextDraw :=
  { fillStyle := s.color
    fontWeight := s.font.weight.getD "700"
    fontPx := s.fontSize * ((img.width : ℚ) / 500)
    fontFamily := s.font.family
    textAlign := "center"
    shadowColor := "rgba(0,0,0,0.5)"
    shadowBlur := 10
    text := s.text
    x := (img.width : ℚ) / 2
    y := ((img.height : ℚ) * s.positionY) / 100 }

/-- One run of the ImageEditor drawing effect (lines 442 to 454) over a
canvas currently holding `prev`: the canvas is resized to the decoded
image (resetting it), the image is drawn at the origin, and the text draw
is applied only when the overlay text is non-empty (line 447:
`if (text)`). -/
def renderStep (prev : Content) (img : Img) (s : OverlayState) : Content :=
  if s.text = "" then Content.imageAt (setSize prev img.width img.height) img
  else
    Content.textOver (Content.imageAt (setSize prev img.width img.height) img) (textCmd img s)

/-- A fresh canvas element (300 by 150 by default, before the effect
resizes it). -/
def freshCanvas : Content := Content.blank 300 150

/-- `render image style`: the first effect run, on a fresh editor canvas. -/
def render (img : Img) (s : OverlayState) : Content := renderStep freshCanvas img s

/-- The text draw present on top of the canvas, if any. -/
def textDrawOf : Content → Option TextDraw
  | Content.textOver _ td => some td
  | _ => none

/-- How many text draws the content stacks. -/
def textLayerCount : Content → ℕ
  | Content.blank _ _ => 0
  | Content.imageAt c _ => textLayerCount c
  | Content.textOver c _ => textLayerCount c + 1

/-- The exported pixels of a canvas holding exactly one full-size blit of
a decoded image: identical to the pixels of the source image. -/
def pixelsOf : Content → Option (List ℕ)
  | Content.imageAt (Content.blank w h) img =>
      if w = img.width ∧ h = img.height then some img.pixels else none
  | _ => none

/-- Everything the caller can observe from one run of the editor drawing
effect. -/
inductive RenderOutcome where
  | drawn : Content → RenderOutcome
  | silent : RenderOutcome
deriving DecidableEq

/-- The guards of the drawing effect (lines 434 to 442): a missing canvas
(`if (!canvas) return`), a missing 2d context (`if (!ctx) return`), or a
source that never finishes decoding (`img.onload` never fires) all abort
silently, drawing nothing and signalling nothing to the caller. -/
def renderEffect (canvasOk ctxOk : Bool) (decoded : Option Img) (s : OverlayState) :
    RenderOutcome :=
  if canvasOk then
    if ctxOk then
      match decoded with
      | some img => RenderOutcome.drawn (render img s)
      | none => RenderOutcome.silent
    else RenderOutcome.silent
  else RenderOutcome.silent

theorem renderStep_of_text {img : Img} {s : OverlayState} (h : ¬ s.text = "")
    (prev : Content) :
    renderStep prev img s =
      Content.textOver (Content.imageAt (Content.blank img.width img.height) img)
        (textCmd img s) := by
  unfold renderStep setSize
  rw [if_neg h]

theorem renderStep_of_no_text {img : Img} {s : OverlayState} (h : s.text = "")
    (prev : Content) :
    renderStep prev img s = Content.imageAt (Content.blank img.width img.height) img := by
  unfold renderStep setSize
  rw [if_pos h]

def imgA : Img := { naturalWidth := 1000, naturalHeight := 1000, pixels := [1, 2, 3] }

def img500 : Img := { naturalWidth := 500, naturalHeight := 500, pixels := [4, 5] }

def styleHi : OverlayState :=
  { text := "Hi"
    font := { name := "Sans", family := "\x27Inter\x27, sans-serif", weight := none }
    color := "#FFFFFF"
    fontSize := 32
    positionY := 50 }

def styleEmpty : OverlayState := { styleHi with text := "" }

/-- Claim C5 counterexample: the shadow blur is a fixed 10 canvas pixels
at every source resolution; it does not scale with the source width the
way the font size does (here the font doubles from 32 to 64 while the
blur stays 10 instead of scaling to 20). -/
theorem shadowBlur_fixed_counterexample :
    (textDrawOf (render img500 styleHi)).map TextDraw.shadowBlur = some 10 ∧
    (textDrawOf (render imgA styleHi)).map TextDraw.shadowBlur = some 10 ∧
    (textDrawOf (render img500 styleHi)).map TextDraw.fontPx = some 32 ∧
    (textDrawOf (render imgA styleHi)).map TextDraw.fontPx = some 64 ∧
    (textDrawOf (render imgA styleHi)).map TextDraw.shadowBlur ≠
      some (10 * ((1000 : ℚ) / 500)) := by
  have h5 : render img500 styleHi =
      Content.textOver (Content.imageAt (Content.blank img500.width img500.height) img500)
        (textCmd img500 styleHi) := renderStep_of_text (by decide) freshCanvas
  have hA : render imgA styleHi =
      Content.textOver (Content.imageAt (Content.blank imgA.width imgA.height) imgA)
        (textCmd imgA styleHi) := renderStep_of_text (by decide) freshCanvas
  refine ⟨?_, ?_, ?_, ?_, ?_⟩ <;> first
    | (rw [h5]; norm_num [textDrawOf, textCmd, Img.width, Img.height, img500, styleHi])
    | (rw [hA]; norm_num [textDrawOf, textCmd, Img.width, Img.height, imgA, styleHi])

/-- Claim C5 amended: when the overlay text is non-empty, render applies
a drop shadow of color rgba(0,0,0,0.5) with a fixed blur radius of 10
canvas pixels (a constant, not scaled with the source resolution the way
the font size is), and draws the text centered horizontally at
x = width / 2 and vertically at y = height * positionYPercent / 100. -/
theorem render_shadow_and_position (img : Img) (s : OverlayState) (h : s.text ≠ "") :
    textDrawOf (render img s) = some (textCmd img s) ∧
    (textCmd img s).shadowColor = "rgba(0,0,0,0.5)" ∧
    (textCmd img s).shadowBlur = 10 ∧
    (textCmd img s).textAlign = "center" ∧
    (textCmd img s).x = (img.width : ℚ) / 2 ∧
    (textCmd img s).y = ((img.height : ℚ) * s.positionY) / 100 := by
  refine ⟨?_, rfl, rfl, rfl, rfl, rfl⟩
  rw [render, renderStep_of_text h freshCanvas]
  rfl

/-- Witness for C5 (amended): concrete evaluation on a 1000 by 1000
source with the sample style. -/
theorem render_shadow_and_position_witness :
    styleHi.text ≠ "" ∧
    (textDrawOf (render imgA styleHi) = some (textCmd imgA styleHi) ∧
     (textCmd imgA styleHi).shadowColor = "rgba(0,0,0,0.5)" ∧
     (textCmd imgA styleHi).shadowBlur = 10 ∧
     (textCmd imgA styleHi).textAlign = "center" ∧
     (textCmd imgA styleHi).x = (imgA.width : ℚ) / 2 ∧
     (textCmd imgA styleHi).y = ((imgA.height : ℚ) * styleHi.positionY) / 100) :=
  ⟨by decide, render_shadow_and_position imgA styleHi (by decide)⟩

/-- Claim C6: render with an empty text string is a valid no-op, not an
error: the canvas holds exactly the source image blitted onto a surface
of its own size (pixel-identical to the source), no text layer exists,
and the effect completes normally. -/
theorem render_empty_text_noop (img : Img) (s : OverlayState) (h : s.text = "") :
    render img s = Content.imageAt (Content.blank img.width img.height) img ∧
    textLayerCount (render img s) = 0 ∧
    pixelsOf (render img s) = some img.pixels ∧
    renderEffect true true (some img) s =
      RenderOutcome.drawn (Content.imageAt (Content.blank img.width img.height) img) := by
  have h1 : render img s = Content.imageAt (Content.blank img.width img.height) img :=
    renderStep_of_no_text h freshCanvas
  refine ⟨h1, by rw [h1]; rfl, by rw [h1]; simp [pixelsOf], ?_⟩
  show RenderOutcome.drawn (render img s) = _
  rw [h1]

/-- Witness for C6: concrete evaluation with the empty-text style. -/
theorem render_empty_text_noop_witness :
    styleEmpty.text = "" ∧
    (render imgA styleEmpty = Content.imageAt (Content.blank imgA.width imgA.height) imgA ∧
     textLayerCount (render imgA styleEmpty) = 0 ∧
     pixelsOf (render imgA styleEmpty) = some imgA.pixels ∧
     renderEffect true true (some imgA) styleEmpty =
       RenderOutcome.drawn (Content.imageAt (Content.blank imgA.width imgA.height) imgA)) :=
  ⟨rfl, render_empty_text_noop imgA styleEmpty rfl⟩

/-- Claim C7: render is deterministic and idempotent: a second effect run
over the canvas produced by a first one yields exactly the output of a
fresh render with the latest style (the canvas reset discards previous
content, so text is replaced, never stacked), and every rendered canvas
carries at most one text layer. -/
theorem render_idempotent_and_replaces :
    (∀ (img : Img) (s : OverlayState) (prev : Content), renderStep prev img s = render img s) ∧
    (∀ (img : Img) (s : OverlayState), renderStep (render img s) img s = render img s) ∧
    (∀ (img : Img) (s1 s2 : OverlayState),
      renderStep (render img s1) img s2 = render img s2) ∧
    (∀ (img : Img) (s : OverlayState), textLayerCount (render img s) ≤ 1) := by
  refine ⟨fun _ _ _ => rfl, fun _ _ => rfl, fun _ _ _ => rfl, ?_⟩
  intro img s
  by_cases h : s.text = ""
  · rw [render, renderStep_of_no_text h freshCanvas]; norm_num [textLayerCount]
  · rw [render, renderStep_of_text h freshCanvas]; norm_num [textLayerCount]

/-- Claim C8: the effective font size used by render is the base font
size scaled by naturalWidth / 500; on a 1000-wide image a base size of 32
becomes 64. -/
theorem render_font_size_scaling :
    (∀ (img : Img) (s : OverlayState), s.text ≠ "" →
      (textDrawOf (render img s)).map TextDraw.fontPx =
        some (s.fontSize * ((img.width : ℚ) / 500))) ∧
    (textDrawOf (render imgA styleHi)).map TextDraw.fontPx = some 64 := by
  have hgen : ∀ (img : Img) (s : OverlayState), s.text ≠ "" →
      (textDrawOf (render img s)).map TextDraw.fontPx =
        some (s.fontSize * ((img.width : ℚ) / 500)) := by
    intro img s h
    rw [render, renderStep_of_text h freshCanvas]
    rfl
  refine ⟨hgen, ?_⟩
  rw [hgen imgA styleHi (by decide)]
  norm_num [imgA, styleHi, Img.width]

/-- Witness for C8: the scaling rule applied concretely on a 500-wide
source keeps the base font size of 32. -/
theorem render_font_size_scaling_witness :
    styleHi.text ≠ "" ∧
    (textDrawOf (render img500 styleHi)).map TextDraw.fontPx =
      some (styleHi.fontSize * ((img500.width : ℚ) / 500)) :=
  ⟨by decide, render_font_size_scaling.1 img500 styleHi (by decide)⟩

/-- Claim C9 counterexample: when the image is missing or the drawing
context cannot be acquired, both applyCrop and the editor drawing effect
abort silently; nothing (neither an image nor any RenderError) is
surfaced to the caller. -/
theorem renderError_not_surfaced_counterexample :
    applyCrop (some img1000) false (16 / 9) initialCrop = CropOutcome.silent ∧
    applyCrop none true (16 / 9) initialCrop = CropOutcome.silent ∧
    renderEffect true false (some imgA) styleHi = RenderOutcome.silent ∧
    renderEffect true true none styleHi = RenderOutcome.silent :=
  ⟨rfl, rfl, rfl, rfl⟩

/-- Claim C9 amended: on decode or context failure, applyCrop and render
abort silently and atomically: no output, partial or complete, is
produced and no error is surfaced to the caller; when both the image and
the context are available, a complete output is always produced in one
step (the full region and the full canvas, never a half-drawn result). -/
theorem failures_abort_silently_and_atomically :
    (∀ (ctxOk : Bool) (ratio : ℚ) (c : Crop),
      applyCrop none ctxOk ratio c = CropOutcome.silent) ∧
    (∀ (img : Img) (ratio : ℚ) (c : Crop),
      applyCrop (some img) false ratio c = CropOutcome.silent) ∧
    (∀ (img : Img) (ratio : ℚ) (c : Crop),
      applyCrop (some img) true ratio c =
        CropOutcome.confirmed
          { width := canvasDim (sourceWidth ratio c img)
            height := canvasDim (sourceHeight ratio c img)
            sx := sourceX c img
            sy := sourceY c img
            sw := sourceWidth ratio c img
            sh := sourceHeight ratio c img }) ∧
    (∀ (ctxOk : Bool) (decoded : Option Img) (s : OverlayState),
      renderEffect false ctxOk decoded s = RenderOutcome.silent) ∧
    (∀ (decoded : Option Img) (s : OverlayState),
      renderEffect true false decoded s = RenderOutcome.silent) ∧
    (∀ (s : OverlayState), renderEffect true true none s = RenderOutcome.silent) ∧
    (∀ (img : Img) (s : OverlayState),
      renderEffect true true (some img) s = RenderOutcome.drawn (render img s)) :=
  ⟨fun _ _ _ => rfl, fun _ _ _ => rfl, fun _ _ _ => rfl, fun _ _ _ => rfl,
    fun _ _ => rfl, fun _ => rfl, fun _ _ => rfl⟩

/-- Claim C10: if the selected font entry does not specify a weight, the
text is drawn with font weight 700; of the four FONTS entries only
Display supplies its own weight (900), so Sans, Serif and Mono overlays
always render at weight 700. -/
theorem render_font_weight_default :
    (∀ (img : Img) (s : OverlayState), s.text ≠ "" →
      (textDrawOf (render img s)).map TextDraw.fontWeight =
        some (s.font.weight.getD "700")) ∧
    (∀ (img : Img) (s : OverlayState), s.text ≠ "" → s.font.weight = none →
      (textDrawOf (render img s)).map TextDraw.fontWeight = some "700") ∧
    FONTS.map Font.name = ["Sans", "Serif", "Mono", "Display"] ∧
    FONTS.map Font.weight = [none, none, none, some "900"] ∧
    (∀ f ∈ FONTS, f.name ≠ "Display" → f.weight = none) := by
  have hgen : ∀ (img : Img) (s : OverlayState), s.text ≠ "" →
      (textDrawOf (render img s)).map TextDraw.fontWeight =
        some (s.font.weight.getD "700") := by
    intro img s h
    rw [render, renderStep_of_text h freshCanvas]
    rfl
  refine ⟨hgen, ?_, by decide, by decide, by decide⟩
  intro img s h hw
  rw [hgen img s h, hw]
  rfl

/-- Witness for C10: the Sans entry carries no weight, so the sample
overlay renders at weight 700. -/
theorem render_font_weight_default_witness :
    styleHi.text ≠ "" ∧ styleHi.font.weight = none ∧
    (textDrawOf (render imgA styleHi)).map TextDraw.fontWeight = some "700" :=
  ⟨by decide, rfl, render_font_weight_default.2.1 imgA styleHi (by decide) rfl⟩

end SocialGenius
